import Mathlib

/-!
Verification development for the InverseMatNastran repository
(`analysis.py`, `dot.py`, `optimization.py`).

The repository calibrates MAT1 material parameters of an FE model
against a measured (DIC) displacement field.  We shallowly embed the
numeric core in Lean: real-valued data is modelled over `ℚ` (the
floating-point programs are treated as exact arithmetic), external
library calls (the RBF interpolants of scipy, the IRLS fit of
statsmodels, the DOT optimizer binary) are abstracted as function
parameters, and the file-reading loop of `get_units` is given fuel so
that its (non-)termination can be reasoned about.  `math.sqrt` is kept
out of the executable definitions; root-mean-square statements are
phrased with `Real.sqrt` applied to the embedded mean-square value.
-/

namespace InverseMat

/-- A 2-D point (X, Y), as used for both FE grid and DIC coordinates. -/
abbrev Pt := ℚ × ℚ

/-- One experimental record: (position, displacement), columns
(1,2) and (4,5) of the experimental data file. -/
abbrev Obs := Pt × Pt

/-- The (2,3) affine transformation matrix returned by
`setupTransform`: row 0 maps to the X output axis and row 1 to the Y
output axis; column 0 is the constant (offset) column, columns 1 and 2
multiply the source X and Y coordinates (`analysis.py`, X = [1, x, y]). -/
structure Mat23 where
  m00 : ℚ
  m01 : ℚ
  m02 : ℚ
  m10 : ℚ
  m11 : ℚ
  m12 : ℚ
  deriving DecidableEq

/-- Apply the affine map to a single point: the source builds the
augmented row [1, x, y] and dots it with each row of `transMat`
(`analysis.py` lines 272-281). -/
def applyT (T : Mat23) (p : Pt) : Pt :=
  (T.m00 * 1 + T.m01 * p.1 + T.m02 * p.2,
   T.m10 * 1 + T.m11 * p.1 + T.m12 * p.2)

/-- `transformDICPnts(transMat, dicPnts)` from `analysis.py`: transform
every DIC point into the FEM coordinate system.  The numpy version
builds the whole [1, x, y] matrix and multiplies; row-wise this is
exactly `applyT` at each point. -/
def transformDICPnts (T : Mat23) (dicPnts : List Pt) : List Pt :=
  dicPnts.map (applyT T)

/-- `dic_gxy` of `getObjectiveFn` (`analysis.py` lines 168-184): the
observation positions in the two branches of the `transMat` test — the
`some` case is the transformation that lines 171-172 and the source's
comments describe (per-point application of the affine map).  Note
this is the *intended* semantics of that branch: the actual Python
test `if (transMat != None)` raises before the branch is ever taken
when a (2,3) matrix is supplied, see `getObjectiveFnExec`. -/
def dic_gxy (expData : List Obs) (transMat : Option Mat23) : List Pt :=
  match transMat with
  | some T => transformDICPnts T (expData.map (fun r => r.1))
  | none => expData.map (fun r => r.1)

/-- `dic_txy` of `getObjectiveFn` (`analysis.py` lines 174-184): in the
`some` branch, the displacements are added to the positions, the sums
are transformed, and the transformed positions are subtracted;
otherwise the raw displacement columns are used.  The `some` case is
the per-point rule that line 178's comment describes; it is the
*intended* semantics only: in pandas, line 178's
`expData.iloc[:,[1,2]] + expData.iloc[:,[4,5]]` would align the two
frames on their disjoint column labels and yield an all-NaN (n,4)
frame, but the line is unreachable because the branch test itself
raises first — see `getObjectiveFnExec`. -/
def dic_txy (expData : List Obs) (transMat : Option Mat23) : List Pt :=
  match transMat with
  | some T =>
      List.zipWith (fun a b => a - b)
        (transformDICPnts T (expData.map (fun r => r.1 + r.2)))
        (dic_gxy expData (some T))
  | none => expData.map (fun r => r.2)

/-- `x_pred` of `getObjectiveFn` (`analysis.py` line 188): the X-axis
RBF interpolant evaluated at the (possibly transformed) observation
positions.  The interpolant itself is scipy's `Rbf` fit of the FE
data and is abstracted as the function `rbf`. -/
def x_pred (rbf : ℚ → ℚ → ℚ) (expData : List Obs) (transMat : Option Mat23) : List ℚ :=
  (dic_gxy expData transMat).map (fun q => rbf q.1 q.2)

/-- `y_pred` of `getObjectiveFn` (`analysis.py` line 189). -/
def y_pred (rbf : ℚ → ℚ → ℚ) (expData : List Obs) (transMat : Option Mat23) : List ℚ :=
  (dic_gxy expData transMat).map (fun q => rbf q.1 q.2)

/-- `np.dot` on two equal-length vectors. -/
def dotL (a b : List ℚ) : ℚ :=
  (List.zipWith (fun x y => x * y) a b).sum

/-- The error vector `x_err = x_pred - dic_txy.iloc[:,0]`
(`analysis.py` line 193). -/
def x_errV (rbf : ℚ → ℚ → ℚ) (expData : List Obs) (transMat : Option Mat23) : List ℚ :=
  List.zipWith (fun p o => p - o)
    (x_pred rbf expData transMat)
    ((dic_txy expData transMat).map (fun q => q.1))

/-- The error vector `y_err = y_pred - dic_txy.iloc[:,1]`
(`analysis.py` line 194). -/
def y_errV (rbf : ℚ → ℚ → ℚ) (expData : List Obs) (transMat : Option Mat23) : List ℚ :=
  List.zipWith (fun p o => p - o)
    (y_pred rbf expData transMat)
    ((dic_txy expData transMat).map (fun q => q.2))

/-- The quantity under the square root in `analysis.py` line 195:
`np.dot(x_err, x_err) / x_err.shape[0]`.  The source then applies
`math.sqrt`; theorems below state the square-root facts over `ℝ`. -/
def x_errMS (rbf : ℚ → ℚ → ℚ) (expData : List Obs) (transMat : Option Mat23) : ℚ :=
  dotL (x_errV rbf expData transMat) (x_errV rbf expData transMat)
    / (x_errV rbf expData transMat).length

/-- The quantity under the square root in `analysis.py` line 196. -/
def y_errMS (rbf : ℚ → ℚ → ℚ) (expData : List Obs) (transMat : Option Mat23) : ℚ :=
  dotL (y_errV rbf expData transMat) (y_errV rbf expData transMat)
    / (y_errV rbf expData transMat).length

/-- The pair returned by `getObjectiveFn` (`analysis.py` line 205),
with the final `math.sqrt` of each component left to the `ℝ`-valued
theorems (the returned value is `(sqrt mse_x, sqrt mse_y)`). -/
def getObjectiveFnMS (rbfx rbfy : ℚ → ℚ → ℚ) (expData : List Obs)
    (transMat : Option Mat23) : ℚ × ℚ :=
  (x_errMS rbfx expData transMat, y_errMS rbfy expData transMat)

/-- An uncaught Python exception escaping `getObjectiveFn`. -/
inductive PyExn where
  | valueError
  deriving DecidableEq

/-- The Python truth test `if (transMat != None)`
(`analysis.py` line 169).  When `transMat` is `None`, `None != None`
evaluates to `False` and the else-branch is taken.  When `transMat` is
the (2,3) numpy array produced by `setupTransform` (the only form
`transformDICPnts`'s `transMat[0,:]` indexing accepts), `!=` is an
elementwise comparison yielding a (2,3) boolean array, and taking the
truth value of an array with more than one element raises
`ValueError`. -/
def transMatTest (transMat : Option Mat23) : Except PyExn Bool :=
  match transMat with
  | none => Except.ok false
  | some _ => Except.error PyExn.valueError

/-- Execution model of `getObjectiveFn`'s branch on `transMat`
(`analysis.py` lines 169-196): the branch test itself raises whenever a
(2,3) transformation matrix is supplied, so the transform branch —
whose intended computation `dic_gxy`/`dic_txy` describe — is
unreachable and only the no-transform path ever produces a residual
(its square; the source applies `math.sqrt` per component). -/
def getObjectiveFnExec (rbfx rbfy : ℚ → ℚ → ℚ) (expData : List Obs)
    (transMat : Option Mat23) : Except PyExn (ℚ × ℚ) :=
  match transMatTest transMat with
  | Except.error e => Except.error e
  | Except.ok true => Except.ok (getObjectiveFnMS rbfx rbfy expData transMat)
  | Except.ok false => Except.ok (getObjectiveFnMS rbfx rbfy expData none)

/-- The two `ValueError`s raised by `setupTransform`
(`analysis.py` lines 226-232), under the spec's names. -/
inductive TransErr where
  | shapeMismatch
  | insufficientPoints
  deriving DecidableEq

/-- `setupTransform(femPnts, dicPnts)` from `analysis.py`: validate the
two point sets, then run the re-weighted least-squares fit (statsmodels
`RLM`, abstracted as `rlmFit`) for each target axis and return the
(2,3) transformation matrix. -/
def setupTransform (rlmFit : List Pt → List Pt → Mat23)
    (femPnts dicPnts : List Pt) : Except TransErr Mat23 :=
  if femPnts.length ≠ dicPnts.length then
    Except.error TransErr.shapeMismatch
  else if femPnts.length < 3 then
    Except.error TransErr.insufficientPoints
  else
    Except.ok (rlmFit femPnts dicPnts)

/-- The MAT1 material fields set by `changeMAT1Card`
(`analysis.py` lines 84-86). -/
structure MatCard where
  matE : ℚ
  matG : ℚ
  nu : ℚ
  deriving DecidableEq

/-- `changeMAT1Card` (`analysis.py` lines 74-91): writes `e`, `g` and
`nu = newE/(2*newG) - 1` into the deck.  Python float division by zero
raises an (unhandled) `ZeroDivisionError`, modelled as `none`; there is
no material validation of any kind in the source. -/
def changeMAT1Card (newE newG : ℚ) : Option MatCard :=
  if 2 * newG = 0 then none
  else some ⟨newE, newG, newE / (2 * newG) - 1⟩

/-- The design-variable scale factor chosen in `myEvaluate`
(`optimization.py` lines 100-105): `1e7` for millimeter units, `1e10`
otherwise. -/
def scalarFor (units : String) : ℚ :=
  if units = "mm" then 10 ^ 7 else 10 ^ 10

/-- The unscaling step of `myEvaluate` (`optimization.py` lines
107-108): `E = x[0]*scalar`, `G = x[1]*scalar`. -/
def toPhysical (x : ℚ × ℚ) (scalar : ℚ) : ℚ × ℚ :=
  (x.1 * scalar, x.2 * scalar)

/-- The inverse of `toPhysical`, per the spec's reversibility
requirement for the Design-Variable Mapper (the source applies it
implicitly by always working on the scaled variables). -/
def fromPhysical (eg : ℚ × ℚ) (scalar : ℚ) : ℚ × ℚ :=
  (eg.1 / scalar, eg.2 / scalar)

/-- `myEvaluate` (`optimization.py` lines 95-122) up to the solver
launch: unscale the design variables and write the material card.
`some card` means `changeMAT1Card` succeeded and `runGENESIS` is then
launched unconditionally with that card in the deck; `none` means the
unhandled `ZeroDivisionError` inside `changeMAT1Card`. -/
def myEvaluate (units : String) (x : ℚ × ℚ) : Option MatCard :=
  changeMAT1Card (x.1 * scalarFor units) (x.2 * scalarFor units)

/-- Is `needle` a contiguous sub-sequence of `hay`?  Models Python's
`needle in line` on strings. -/
def subChars (needle : List Char) : List Char → Bool
  | [] => needle.isEmpty
  | c :: rest => needle.isPrefixOf (c :: rest) || subChars needle rest

/-- Python's `needle in hay` for strings. -/
def strIn (needle hay : String) : Bool :=
  subChars needle.data hay.data

/-- The units marker scanned for by `get_units`
(`optimization.py` line 72). -/
def unitsMarker : String := "$*                UNITS:"

/-- The `while cur_pos <= no_chars` loop of `get_units`
(`optimization.py` lines 67-84).  The file is a list of lines as
`readline` returns them (each including its newline); `pos` is the
cursor `tell()` value, `total` is `no_chars`.  At end of file
`readline` returns the empty string and the cursor does not move.
The result is `some u` when the loop exits with the local variable
`units` holding `u` (`some` on a `break`, `none` if the loop condition
ever failed with `units` unset), and `none` when the fuel runs out
before the loop exits. -/
def getUnitsLoop (total : Nat) : Nat → List String → Nat → Option (Option String)
  | 0, _, _ => none
  | fuel + 1, rem, pos =>
    if pos ≤ total then
      match rem with
      | [] => getUnitsLoop total fuel [] pos
      | l :: rest =>
        if strIn unitsMarker l then
          if strIn "mm" l then some (some "mm")
          else if strIn "Meter" l then some (some "M")
          else getUnitsLoop total fuel rest (pos + l.length)
        else getUnitsLoop total fuel rest (pos + l.length)
    else some none

/-- `get_units(fname)` (`optimization.py` lines 56-91) on a file given
as its list of lines, with fuel for the scanning loop.  After the loop
the source unconditionally executes `units = "mm"` (line 88), so
whatever the loop detected is overwritten; `none` means the loop never
exited within the given fuel. -/
def get_units (fuel : Nat) (lines : List String) : Option String :=
  match getUnitsLoop ((lines.map String.length).sum) fuel lines 0 with
  | some _ => some "mm"
  | none => none

/-- The sizes and error flag returned by the DOT sizing routine
`dot510_` (`dot.py` lines 55-65).  The source reads the size fields to
allocate the `WK`/`IWK` buffers and stores `IERR` without ever
inspecting it. -/
structure SizeInfo where
  nrwkmx : Nat
  nriwk : Nat
  ierr : ℤ
  deriving DecidableEq

/-- `max(G)` on a nonempty constraint buffer (Python `max`); the empty
case is never reached because it is guarded by `len(G) > 0`. -/
def listMax : List ℚ → ℚ
  | [] => 0
  | h :: t => t.foldl max h

/-- The `while (True)` loop of `dotcall` (`dot.py` lines 73-78): call
`dot_` (abstracted as `step`, which updates the optimizer's internal
state, the `INFO` code and the design vector `X`); on `INFO == 0`
break, otherwise call the evaluation callback (abstracted as `evalFn`,
which rewrites `OBJ` and `G` from the current `X`) and loop.  Returns
the `(X, OBJ, G)` buffers at the break, or `none` if the fuel is
exhausted first. -/
def dotLoop {σ : Type} (step : σ → List ℚ → ℚ → List ℚ → σ × ℤ × List ℚ)
    (evalFn : List ℚ → ℚ × List ℚ) :
    Nat → σ → List ℚ → ℚ → List ℚ → Option (List ℚ × ℚ × List ℚ)
  | 0, _, _, _, _ => none
  | fuel + 1, s, x, obj, g =>
    let r := step s x obj g
    if r.2.1 = 0 then some (r.2.2, obj, g)
    else
      let e := evalFn r.2.2
      dotLoop step evalFn fuel r.1 r.2.2 e.1 e.2

/-- `dotcall` (`dot.py` lines 25-87): run the sizing call (whose
`SizeInfo`, error flag included, the source never checks), start the
step loop with `OBJ = 0` and `G = zeros(nCons)`, and on exit package
`rslt = [OBJ, max(G) if len(G) > 0 else 0, X...]`
(`dot.py` lines 80-87). -/
def dotcall {σ : Type} (sizing : SizeInfo)
    (step : σ → List ℚ → ℚ → List ℚ → σ × ℤ × List ℚ)
    (evalFn : List ℚ → ℚ × List ℚ)
    (fuel : Nat) (s0 : σ) (x : List ℚ) (nCons : Nat) : Option (List ℚ) :=
  match dotLoop step evalFn fuel s0 x 0 (List.replicate nCons 0) with
  | none => none
  | some (xf, objf, gf) =>
      some (objf :: (if gf = [] then 0 else listMax gf) :: xf)

/-- A trivial optimizer model: report DONE immediately. -/
def stepDone : Unit → List ℚ → ℚ → List ℚ → Unit × ℤ × List ℚ :=
  fun _ x _ _ => ((), 0, x)

/-- A trivial evaluation callback. -/
def evalZero : List ℚ → ℚ × List ℚ :=
  fun _ => (0, [])

/-- A constant stand-in for the statsmodels RLM fit. -/
def constFit : List Pt → List Pt → Mat23 :=
  fun _ _ => ⟨0, 1, 0, 0, 0, 1⟩

/-- A marker-free input file for `get_units`. -/
def noMarkerLines : List String := ["SOL 101\n", "CEND\n", "BEGIN BULK\n"]

/-- An input file whose units line declares meters. -/
def meterLines : List String := [unitsMarker ++ " Meter\n"]

/-- A zero interpolant, used to exercise the residual definitions. -/
def rbfZero : ℚ → ℚ → ℚ := fun _ _ => 0

/-- Concrete observation data with a constant displacement offset. -/
def exC4 : List Obs := [((0, 0), (-5, 4)), ((1, 0), (-5, 4))]

/-! ## Helper lemmas -/

theorem zipWith_map_same {α β γ δ : Type} (h : β → γ → δ) (f : α → β) (g : α → γ)
    (l : List α) :
    List.zipWith h (l.map f) (l.map g) = l.map (fun a => h (f a) (g a)) := by
  rw [List.zipWith_map, List.zipWith_same]

theorem dotL_self (e : List ℚ) : dotL e e = (e.map fun a => a ^ 2).sum := by
  induction e with
  | nil => rfl
  | cons a t ih =>
    simp only [dotL, List.zipWith_cons_cons, List.sum_cons, List.map_cons] at *
    rw [ih, pow_two]

theorem dic_gxy_length (d : List Obs) (tm : Option Mat23) :
    (dic_gxy d tm).length = d.length := by
  cases tm <;> simp [dic_gxy, transformDICPnts]

theorem dic_txy_length (d : List Obs) (tm : Option Mat23) :
    (dic_txy d tm).length = d.length := by
  cases tm <;> simp [dic_txy, dic_gxy, transformDICPnts]

theorem x_errV_length (rbf : ℚ → ℚ → ℚ) (d : List Obs) (tm : Option Mat23) :
    (x_errV rbf d tm).length = d.length := by
  simp [x_errV, x_pred, dic_gxy_length, dic_txy_length]

theorem y_errV_length (rbf : ℚ → ℚ → ℚ) (d : List Obs) (tm : Option Mat23) :
    (y_errV rbf d tm).length = d.length := by
  simp [y_errV, y_pred, dic_gxy_length, dic_txy_length]

theorem scalarFor_ne_zero (units : String) : scalarFor units ≠ 0 := by
  unfold scalarFor
  split <;> norm_num

theorem scalarFor_pos (units : String) : 0 < scalarFor units := by
  unfold scalarFor
  split <;> norm_num

theorem applyT_offset (T : Mat23) (c0 c1 : ℚ) (p q : Pt) :
    applyT ⟨T.m00 + c0, T.m01, T.m02, T.m10 + c1, T.m11, T.m12⟩ q -
      applyT ⟨T.m00 + c0, T.m01, T.m02, T.m10 + c1, T.m11, T.m12⟩ p =
    applyT T q - applyT T p := by
  cases p with
  | mk px py =>
    cases q with
    | mk qx qy =>
      simp only [applyT, Prod.mk_sub_mk, Prod.mk.injEq]
      constructor <;> ring

theorem rmse_zero (l : List ℚ) :
    Real.sqrt ((dotL (l.map fun _ => (0 : ℚ)) (l.map fun _ => (0 : ℚ)) /
      (((l.map fun _ => (0 : ℚ)).length : ℚ)) : ℚ)) = 0 := by
  rw [dotL_self]
  simp

theorem rmse_offset (n : Nat) (dlt : ℚ) (hn : n ≠ 0) :
    Real.sqrt ((dotL (List.replicate n dlt) (List.replicate n dlt) /
      (((List.replicate n dlt).length : ℚ)) : ℚ)) = |(dlt : ℝ)| := by
  have hcast : ((n : ℚ)) ≠ 0 := Nat.cast_ne_zero.mpr hn
  rw [dotL_self]
  simp only [List.map_replicate, List.sum_replicate, List.length_replicate, nsmul_eq_mul]
  rw [mul_div_cancel_left₀ _ hcast]
  rw [show ((dlt ^ 2 : ℚ) : ℝ) = (dlt : ℝ) ^ 2 by push_cast; ring]
  exact Real.sqrt_sq_eq_abs _

theorem objMS_congr (rbfx rbfy : ℚ → ℚ → ℚ) (d1 d2 : List Obs) (t1 t2 : Option Mat23)
    (h1 : dic_gxy d1 t1 = dic_gxy d2 t2) (h2 : dic_txy d1 t1 = dic_txy d2 t2) :
    getObjectiveFnMS rbfx rbfy d1 t1 = getObjectiveFnMS rbfx rbfy d2 t2 := by
  unfold getObjectiveFnMS x_errMS y_errMS x_errV y_errV x_pred y_pred
  rw [h1, h2]

theorem getUnitsLoop_no_marker (total : Nat) :
    ∀ (fuel : Nat) (rem : List String) (pos : Nat),
      (∀ l ∈ rem, strIn unitsMarker l = false) →
      pos + (rem.map String.length).sum ≤ total →
      getUnitsLoop total fuel rem pos = none := by
  intro fuel
  induction fuel with
  | zero =>
    intro rem pos _ _
    rfl
  | succ n ih =>
    intro rem pos h hle
    cases rem with
    | nil =>
      have hp : pos ≤ total := by simpa using hle
      simp only [getUnitsLoop, if_pos hp]
      exact ih [] pos (by simp) (by simpa using hle)
    | cons l rest =>
      have hp : pos ≤ total := le_trans (Nat.le_add_right _ _) hle
      have hm : strIn unitsMarker l = false := h l (List.mem_cons_self _ _)
      have hrest : ∀ x ∈ rest, strIn unitsMarker x = false :=
        fun x hx => h x (List.mem_cons_of_mem _ hx)
      have hle' : pos + l.length + (rest.map String.length).sum ≤ total := by
        simp only [List.map_cons, List.sum_cons] at hle
        omega
      simp only [getUnitsLoop, if_pos hp, hm, Bool.false_eq_true, if_false]
      exact ih rest (pos + l.length) hrest hle'

/-! ## Claim theorems -/

/-- C1 (code bug): the claimed transform behaviour is the intent
documented by the source's own comments, but it never executes — for
every supplied (2,3) transformation matrix, the branch test
`if (transMat != None)` itself raises `ValueError` (elementwise numpy
comparison, ambiguous truth value of a multi-element array) before any
position or displacement is transformed; only the no-transform path
runs, and there the observation set's positions and displacements are
used unmodified, as claimed. -/
theorem c1_transform_unreachable (rbfx rbfy : ℚ → ℚ → ℚ) (expData : List Obs) (T : Mat23) :
    getObjectiveFnExec rbfx rbfy expData (some T) = Except.error PyExn.valueError ∧
    getObjectiveFnExec rbfx rbfy expData none =
      Except.ok (getObjectiveFnMS rbfx rbfy expData none) ∧
    dic_gxy expData none = expData.map (fun r => r.1) ∧
    dic_txy expData none = expData.map (fun r => r.2) :=
  ⟨rfl, rfl, rfl, rfl⟩

/-- C2 (amended): the error flag `IERR` produced by the `dot510_`
sizing call is never inspected by `dotcall`; the result is the same for
any value of `ierr`, the working buffers are allocated and the step
loop entered regardless, and no failure path exists. -/
theorem c2_ierr_ignored {σ : Type} (nrwkmx nriwk : Nat) (e e' : ℤ)
    (step : σ → List ℚ → ℚ → List ℚ → σ × ℤ × List ℚ)
    (evalFn : List ℚ → ℚ × List ℚ) (fuel : Nat) (s0 : σ) (x : List ℚ) (nCons : Nat) :
    dotcall ⟨nrwkmx, nriwk, e⟩ step evalFn fuel s0 x nCons =
      dotcall ⟨nrwkmx, nriwk, e'⟩ step evalFn fuel s0 x nCons := rfl

/-- C2 counterexample: with a sizing result whose `IERR` is the nonzero
code 1, `dotcall` still proceeds into the step loop and returns a
normal result instead of failing. -/
theorem c2_counterexample :
    (⟨0, 0, 1⟩ : SizeInfo).ierr ≠ 0 ∧
    dotcall ⟨0, 0, 1⟩ stepDone evalZero 1 () [10, 3] 0 = some [0, 0, 10, 3] := by
  exact ⟨by decide, by decide⟩

/-- C3 (amended): there is no material validation at all.  When the
shear modulus is zero the ν computation fails with an unhandled
`ZeroDivisionError` (not an `InvalidMaterialError`); for every nonzero
shear modulus the card — with ν = E/(2G) − 1 unchecked, even outside
(−1, 0.5) — is written to the deck and the solver is launched. -/
theorem c3_no_validation (units : String) (x : ℚ × ℚ) :
    myEvaluate units x =
      if x.2 = 0 then none
      else some ⟨x.1 * scalarFor units, x.2 * scalarFor units, x.1 / (2 * x.2) - 1⟩ := by
  have hs : scalarFor units ≠ 0 := scalarFor_ne_zero units
  unfold myEvaluate changeMAT1Card
  by_cases h : x.2 = 0
  · rw [if_pos h, if_pos]
    rw [h, zero_mul, mul_zero]
  · rw [if_neg h, if_neg]
    · have hdiv : x.1 * scalarFor units / (2 * (x.2 * scalarFor units)) = x.1 / (2 * x.2) := by
        rw [show 2 * (x.2 * scalarFor units) = 2 * x.2 * scalarFor units by ring,
          mul_div_mul_right _ _ hs]
      rw [hdiv]
    · have : (2 : ℚ) * (x.2 * scalarFor units) ≠ 0 := by
        apply mul_ne_zero two_ne_zero (mul_ne_zero h hs)
      exact this

/-- C3 counterexample: the design vector (10, 2) in millimeter units
yields ν = 3/2, which is outside the open interval (−1, 0.5), yet
`myEvaluate` writes the card and launches the solver instead of failing
with an `InvalidMaterialError`. -/
theorem c3_counterexample :
    myEvaluate "mm" (10, 2) = some ⟨10 * 10 ^ 7, 2 * 10 ^ 7, 3 / 2⟩ ∧
    ¬((-1 : ℚ) < 3 / 2 ∧ (3 / 2 : ℚ) < 1 / 2) := by
  constructor
  · norm_num [myEvaluate, changeMAT1Card, scalarFor]
  · norm_num

/-- C4: each residual component of the objective evaluator is the
population RMSE — the square root of the sum of squared
predicted-minus-observed differences divided by the observation count
(not count − 1); predicted equal to observed gives residual 0, and a
constant error offset across all points gives residual exactly the
absolute offset. -/
theorem c4_population_rmse (rbfx rbfy : ℚ → ℚ → ℚ) (expData : List Obs)
    (transMat : Option Mat23) (dlt : ℚ) (hne : expData ≠ []) :
    (Real.sqrt ((x_errMS rbfx expData transMat : ℚ) : ℝ) =
        Real.sqrt (((((x_errV rbfx expData transMat).map fun e => e ^ 2).sum /
          (expData.length : ℚ) : ℚ) : ℝ)) ∧
      Real.sqrt ((y_errMS rbfy expData transMat : ℚ) : ℝ) =
        Real.sqrt (((((y_errV rbfy expData transMat).map fun e => e ^ 2).sum /
          (expData.length : ℚ) : ℚ) : ℝ))) ∧
    ((x_pred rbfx expData transMat = (dic_txy expData transMat).map (fun q => q.1) →
        Real.sqrt ((x_errMS rbfx expData transMat : ℚ) : ℝ) = 0) ∧
      (y_pred rbfy expData transMat = (dic_txy expData transMat).map (fun q => q.2) →
        Real.sqrt ((y_errMS rbfy expData transMat : ℚ) : ℝ) = 0)) ∧
    ((x_errV rbfx expData transMat = List.replicate expData.length dlt →
        Real.sqrt ((x_errMS rbfx expData transMat : ℚ) : ℝ) = |(dlt : ℝ)|) ∧
      (y_errV rbfy expData transMat = List.replicate expData.length dlt →
        Real.sqrt ((y_errMS rbfy expData transMat : ℚ) : ℝ) = |(dlt : ℝ)|)) := by
  have hn : expData.length ≠ 0 := fun h => hne (List.length_eq_zero.mp h)
  refine ⟨⟨?_, ?_⟩, ⟨?_, ?_⟩, ⟨?_, ?_⟩⟩
  · unfold x_errMS
    rw [dotL_self, x_errV_length]
  · unfold y_errMS
    rw [dotL_self, y_errV_length]
  · intro hx
    have he : x_errV rbfx expData transMat =
        ((dic_txy expData transMat).map fun q => q.1).map (fun _ => (0 : ℚ)) := by
      unfold x_errV
      rw [hx, List.zipWith_same]
      simp
    unfold x_errMS
    rw [he]
    exact rmse_zero _
  · intro hy
    have he : y_errV rbfy expData transMat =
        ((dic_txy expData transMat).map fun q => q.2).map (fun _ => (0 : ℚ)) := by
      unfold y_errV
      rw [hy, List.zipWith_same]
      simp
    unfold y_errMS
    rw [he]
    exact rmse_zero _
  · intro hx
    unfold x_errMS
    rw [hx]
    exact rmse_offset expData.length dlt hn
  · intro hy
    unfold y_errMS
    rw [hy]
    exact rmse_offset expData.length dlt hn

/-- C4 witness: two observation points with a constant error offset of
5 between prediction and observation give residual exactly 5. -/
theorem c4_witness :
    exC4 ≠ [] ∧ Real.sqrt ((x_errMS rbfZero exC4 none : ℚ) : ℝ) = |((5 : ℚ) : ℝ)| :=
  ⟨by decide, (c4_population_rmse rbfZero rbfZero exC4 none 5 (by decide)).2.2.1
    (by norm_num [x_errV, x_pred, dic_gxy, dic_txy, exC4, rbfZero, List.replicate])⟩

/-- C5: `setupTransform` fails with the shape-mismatch error when the
two point sets differ in count, fails with the insufficient-points
error when fewer than 3 correspondences are supplied, and otherwise
proceeds to the re-weighted least-squares fit without raising either
error. -/
theorem c5_setupTransform (rlmFit : List Pt → List Pt → Mat23) (femPnts dicPnts : List Pt) :
    (femPnts.length ≠ dicPnts.length →
      setupTransform rlmFit femPnts dicPnts = Except.error TransErr.shapeMismatch) ∧
    (femPnts.length = dicPnts.length → femPnts.length < 3 →
      setupTransform rlmFit femPnts dicPnts = Except.error TransErr.insufficientPoints) ∧
    (femPnts.length = dicPnts.length → 3 ≤ femPnts.length →
      setupTransform rlmFit femPnts dicPnts = Except.ok (rlmFit femPnts dicPnts)) := by
  refine ⟨fun h => ?_, fun h1 h2 => ?_, fun h1 h2 => ?_⟩
  · unfold setupTransform
    rw [if_pos h]
  · unfold setupTransform
    rw [if_neg (fun hc => hc h1), if_pos h2]
  · unfold setupTransform
    rw [if_neg (fun hc => hc h1), if_neg (Nat.not_lt.mpr h2)]

/-- C5 witness: concrete point sets exercising the shape-mismatch
error, the insufficient-points error, and the successful path. -/
theorem c5_witness :
    setupTransform constFit [(0, 0), (1, 0), (0, 1)] [(0, 0)] =
      Except.error TransErr.shapeMismatch ∧
    setupTransform constFit [(0, 0), (1, 0)] [(0, 0), (1, 1)] =
      Except.error TransErr.insufficientPoints ∧
    setupTransform constFit [(0, 0), (1, 0), (0, 1)] [(1, 1), (3, 1), (1, 4)] =
      Except.ok (constFit [(0, 0), (1, 0), (0, 1)] [(1, 1), (3, 1), (1, 4)]) :=
  ⟨(c5_setupTransform constFit _ _).1 (by decide),
   (c5_setupTransform constFit _ _).2.1 (by decide) (by decide),
   (c5_setupTransform constFit _ _).2.2 (by decide) (by decide)⟩

/-- C6: the displacement-transform rule applied to a zero displacement
yields exactly the zero displacement, and the offset (translation)
column of the transform cancels out of every displacement delta. -/
theorem c6_displacement_zero (T : Mat23) (pnts : List Pt) :
    List.zipWith (fun a b => a - b)
        (transformDICPnts T (pnts.map (fun p => p + ((0 : ℚ), (0 : ℚ)))))
        (transformDICPnts T pnts) = pnts.map (fun _ => ((0 : ℚ), (0 : ℚ))) ∧
    ∀ (c0 c1 : ℚ) (disp : List Pt),
      List.zipWith (fun a b => a - b)
          (transformDICPnts ⟨T.m00 + c0, T.m01, T.m02, T.m10 + c1, T.m11, T.m12⟩
            (List.zipWith (fun p d => p + d) pnts disp))
          (transformDICPnts ⟨T.m00 + c0, T.m01, T.m02, T.m10 + c1, T.m11, T.m12⟩ pnts) =
      List.zipWith (fun a b => a - b)
          (transformDICPnts T (List.zipWith (fun p d => p + d) pnts disp))
          (transformDICPnts T pnts) := by
  constructor
  · have hid : pnts.map (fun p => p + ((0 : ℚ), (0 : ℚ))) = pnts := by
      have hp : ∀ p : Pt, p + ((0 : ℚ), (0 : ℚ)) = p := fun p => by
        cases p with
        | mk a b => simp
      rw [show (fun p : Pt => p + ((0 : ℚ), (0 : ℚ))) = id from funext hp, List.map_id]
    rw [hid, transformDICPnts, List.zipWith_same]
    simp only [sub_self, List.map_map]
    rfl
  · intro c0 c1 disp
    induction pnts generalizing disp with
    | nil => simp [transformDICPnts]
    | cons p ps ih =>
      cases disp with
      | nil => simp [transformDICPnts]
      | cons d ds =>
        simp only [List.zipWith_cons_cons, transformDICPnts, List.map_cons]
        rw [applyT_offset T c0 c1 p (p + d)]
        congr 1
        simpa [transformDICPnts] using ih ds

/-- C7: the design-variable mapping `E = x[0]·scale`, `G = x[1]·scale`
with the fixed positive unit-system scale factor is reversible — the
inverse scaling recovers the original design vector exactly. -/
theorem c7_mapper_reversible (units : String) (x : ℚ × ℚ)
    (hb : 2 ≤ x.1 ∧ x.1 ≤ 20 ∧ 2 ≤ x.2 ∧ x.2 ≤ 20) :
    fromPhysical (toPhysical x (scalarFor units)) (scalarFor units) = x ∧
    0 < scalarFor units := by
  have hs : scalarFor units ≠ 0 := scalarFor_ne_zero units
  refine ⟨?_, scalarFor_pos units⟩
  unfold fromPhysical toPhysical
  cases x with
  | mk a b => simp [mul_div_cancel_right₀, hs]

/-- C7 witness: the in-bounds design vector (10, 5) under the
millimeter scale factor round-trips exactly. -/
theorem c7_witness :
    (2 ≤ (10 : ℚ) ∧ (10 : ℚ) ≤ 20 ∧ 2 ≤ (5 : ℚ) ∧ (5 : ℚ) ≤ 20) ∧
    (fromPhysical (toPhysical (10, 5) (scalarFor "mm")) (scalarFor "mm") = (10, 5) ∧
      0 < scalarFor "mm") :=
  ⟨by decide, c7_mapper_reversible "mm" (10, 5) (by decide)⟩

/-- C8: when the step loop exits on the optimizer's DONE code
(INFO = 0), `dotcall` returns the final objective value, then the
maximum constraint violation (0 when the constraint buffer is empty,
`max(G)` otherwise), then the final design-variable values, in that
order. -/
theorem c8_converged_result {σ : Type} (sizing : SizeInfo)
    (step : σ → List ℚ → ℚ → List ℚ → σ × ℤ × List ℚ)
    (evalFn : List ℚ → ℚ × List ℚ) (fuel : Nat) (s0 : σ) (x : List ℚ) (nCons : Nat)
    (xf : List ℚ) (objf : ℚ) (gf : List ℚ)
    (h : dotLoop step evalFn fuel s0 x 0 (List.replicate nCons 0) = some (xf, objf, gf)) :
    dotcall sizing step evalFn fuel s0 x nCons =
      some (objf :: (if gf = [] then 0 else listMax gf) :: xf) := by
  unfold dotcall
  rw [h]

/-- C8 witness: an optimizer model that reports DONE immediately makes
`dotcall` return [objective, 0, design...] for a zero-constraint run. -/
theorem c8_witness :
    dotLoop stepDone evalZero 1 () [1, 2] 0 (List.replicate 0 (0 : ℚ)) =
      some ([1, 2], 0, []) ∧
    dotcall ⟨20, 20, 0⟩ stepDone evalZero 1 () [1, 2] 0 = some [0, 0, 1, 2] := by
  refine ⟨rfl, ?_⟩
  have h := c8_converged_result ⟨20, 20, 0⟩ stepDone evalZero 1 () [1, 2] 0 [1, 2] 0 [] rfl
  simpa using h

/-- C9 (code bug): for a file containing no units-marker line,
`get_units` never terminates — at end of file `readline` returns the
empty string while `tell()` stays equal to `no_chars`, so the loop
condition `cur_pos <= no_chars` remains true forever and the documented
millimeter default is never reached. -/
theorem c9_nontermination (lines : List String)
    (h : ∀ l ∈ lines, strIn unitsMarker l = false) (fuel : Nat) :
    get_units fuel lines = none := by
  unfold get_units
  rw [getUnitsLoop_no_marker _ fuel lines 0 h (by simp)]

/-- C9 witness: a concrete marker-free deck never yields a result, for
any amount of fuel given to the scanning loop. -/
theorem c9_witness : get_units 7 noMarkerLines = none :=
  c9_nontermination noMarkerLines (by decide) 7

/-- C10: whenever `get_units` returns, its result is "mm" regardless of
the file content — the value detected in the scan loop is overwritten
by the unconditional `units = "mm"` after the loop — so `myEvaluate`
always selects the millimeter scale factor 1e7 and the meter branch is
unreachable. -/
theorem c10_always_mm (fuel : Nat) (lines : List String) (r : String)
    (h : get_units fuel lines = some r) :
    r = "mm" ∧ scalarFor r = 10 ^ 7 := by
  unfold get_units at h
  cases hml : getUnitsLoop ((lines.map String.length).sum) fuel lines 0 with
  | none =>
    rw [hml] at h
    exact absurd h (by simp)
  | some u =>
    rw [hml] at h
    have hr : r = "mm" := by
      injection h with h'
      exact h'.symm
    exact ⟨hr, by simp [scalarFor, hr]⟩

/-- C10 witness: a deck whose units line declares meters still comes
back as "mm". -/
theorem c10_witness :
    get_units 1 meterLines = some "mm" ∧ ("mm" = "mm" ∧ scalarFor "mm" = 10 ^ 7) :=
  ⟨by decide, c10_always_mm 1 meterLines "mm" (by decide)⟩

end InverseMat
